import Mathlib

/-!
# Verification of the Tubely video upload/delivery pipeline

A shallow embedding of `handler_upload_video.go` from
`learn-file-storage-s3-golang-starter`, together with theorems checking the
repository's natural-language specification against the code.

Modelling conventions:
* Go strings are modelled as `List Char` (`Str`); `strings.Split` with the
  one-character separator `","` is embedded as `stringsSplit`.
* Go's `float64` division of stream dimensions is modelled by `FloatVal`:
  a finite quotient is idealized as the exact rational `w / h`, and division
  by zero yields `posInf` / `negInf` / `nan` with IEEE-754 comparison
  behaviour (`fge`, `fle`), matching Go's unguarded `float64` division.
* External effects (auth, database, multipart parsing, `ffprobe`, `ffmpeg`,
  S3 put/presign, randomness) are inputs of an environment record `Env`;
  the handler is a function from `Env` to an effect trace `Trace` recording
  temporary files created/removed, objects put, record updates, and the
  HTTP response, in the exact order of the source.
-/

namespace Tubely

set_option autoImplicit false

/-- Go strings, modelled as their character lists. -/
abbrev Str := List Char

/-- Embedding of Go `strings.Split(s, sep)` for a one-character separator:
splits `s` around every occurrence of `sep`; the result always has one more
element than the number of occurrences of `sep`. -/
def stringsSplit (sep : Char) : Str → List Str
  | [] => [[]]
  | c :: cs =>
    let r := stringsSplit sep cs
    if c = sep then [] :: r else (c :: r.headI) :: r.tail

/-- Number of occurrences of a character in a Go string. -/
def countChar (sep : Char) : Str → Nat
  | [] => 0
  | c :: cs => (if c = sep then 1 else 0) + countChar sep cs

theorem stringsSplit_ne_nil (sep : Char) (s : Str) : stringsSplit sep s ≠ [] := by
  cases s with
  | nil => simp [stringsSplit]
  | cons c cs =>
    simp only [stringsSplit]
    split <;> simp

theorem length_stringsSplit (sep : Char) (s : Str) :
    (stringsSplit sep s).length = countChar sep s + 1 := by
  induction s with
  | nil => simp [stringsSplit, countChar]
  | cons c cs ih =>
    have hne := stringsSplit_ne_nil sep cs
    simp only [stringsSplit, countChar]
    cases hr : stringsSplit sep cs with
    | nil => exact absurd hr hne
    | cons p ps =>
      rw [hr] at ih
      split <;> simp_all <;> omega

theorem stringsSplit_eq_single (sep : Char) (s : Str) (h : sep ∉ s) :
    stringsSplit sep s = [s] := by
  induction s with
  | nil => rfl
  | cons c cs ih =>
    simp only [List.mem_cons, not_or] at h
    simp only [stringsSplit, ih h.2]
    rw [if_neg (fun hc => h.1 hc.symm)]
    simp

theorem stringsSplit_append_sep (sep : Char) (b k : Str) (hb : sep ∉ b) :
    stringsSplit sep (b ++ sep :: k) = b :: stringsSplit sep k := by
  induction b with
  | nil => simp [stringsSplit]
  | cons c b' ih =>
    simp only [List.mem_cons, not_or] at hb
    simp only [List.cons_append, stringsSplit, List.append_eq]
    rw [if_neg (fun hc => hb.1 hc.symm), ih hb.2]
    simp

theorem countChar_append (sep : Char) (a b : Str) :
    countChar sep (a ++ b) = countChar sep a + countChar sep b := by
  induction a with
  | nil => simp [countChar]
  | cons c cs ih =>
    simp only [List.cons_append, countChar, List.append_eq]
    rw [ih]
    omega

theorem countChar_eq_zero (sep : Char) (s : Str) (h : sep ∉ s) :
    countChar sep s = 0 := by
  induction s with
  | nil => rfl
  | cons c cs ih =>
    simp only [List.mem_cons, not_or] at h
    simp only [countChar, ih h.2]
    rw [if_neg (fun hc => h.1 hc.symm)]

/-! ## Media prober and aspect classifier (`getVideoAspectRatio`, lines 163-201) -/

/-- Value of a Go `float64` division of two integer stream dimensions.
A nonzero denominator is idealized as the exact rational quotient; a zero
denominator yields the IEEE-754 special values that Go's unguarded
`float64(width) / float64(height)` produces. -/
inductive FloatVal where
  | finite (q : ℚ)
  | posInf
  | negInf
  | nan
deriving DecidableEq

/-- IEEE-754 semantics of Go's `>=` on a `float64` against a finite constant:
`+Inf >= c` is true, `-Inf >= c` is false, and any comparison with NaN is false. -/
def fge (x : FloatVal) (c : ℚ) : Bool :=
  match x with
  | .finite q => decide (c ≤ q)
  | .posInf => true
  | .negInf => false
  | .nan => false

/-- IEEE-754 semantics of Go's `<=` on a `float64` against a finite constant. -/
def fle (x : FloatVal) (c : ℚ) : Bool :=
  match x with
  | .finite q => decide (q ≤ c)
  | .posInf => false
  | .negInf => true
  | .nan => false

/-- Go `float64(w) / float64(h)` for integer stream dimensions (line 190). -/
def float64Div (w h : ℤ) : FloatVal :=
  if h ≠ 0 then .finite ((w : ℚ) / (h : ℚ))
  else if 0 < w then .posInf
  else if w < 0 then .negInf
  else .nan

/-- The classification chain of `getVideoAspectRatio` (lines 192-200):
`ratio >= 1.7 && ratio <= 1.8` gives `"16:9"`, else
`ratio >= 0.5 && ratio <= 0.6` gives `"9:16"`, else `"other"`. -/
def classifyAspect (x : FloatVal) : Str :=
  if fge x 1.7 && fle x 1.8 then "16:9".toList
  else if fge x 0.5 && fle x 0.6 then "9:16".toList
  else "other".toList

/-- `getVideoAspectRatio` (lines 170-201). Running `ffprobe` and JSON-decoding
its output are external; their combined outcome (a parsed stream list of
`(width, height)` pairs, or an error) is the argument. The function then
errors on an empty stream list and otherwise classifies the first stream's
`width / height` ratio, exactly as lines 186-200. -/
def getVideoAspectRatio (ffprobeOut : Except Str (List (ℤ × ℤ))) :
    Except Str Str :=
  match ffprobeOut with
  | .error e => .error ("failed to run ffprobe: ".toList ++ e)
  | .ok streams =>
    match streams with
    | [] => .error "no streams found in video file".toList
    | (w, h) :: _ => .ok (classifyAspect (float64Div w h))

/-! ## Locator codec (lines 145, 215-251) -/

/-- The external video record (`database.Video`).
Modelled from the spec: the `internal/database` package is not among the
embedded sources; the spec's VideoRecord carries an identity, the owning
user identity, an optional thumbnail reference and an optional Locator
(`VideoURL`). Only `videoURL` is ever rewritten by the embedded code. -/
structure Video where
  id : ℕ
  userID : ℕ
  thumbnailURL : Option Str
  videoURL : Option Str
deriving DecidableEq, Repr

/-- The Locator string written at line 145: `fmt.Sprintf("%s,%s", bucket, key)`. -/
def mkVideoURL (bucket key : Str) : Str := bucket ++ ',' :: key

/-- The corrupt-locator error message of line 240. -/
def malformedLocatorMsg : Str :=
  "error mapping db video to video with presigned url".toList

/-- The locator-decoding step of `dbVideoToSignedVideo` (lines 238-241):
split on `","` and demand exactly two parts; the two parts are then the
bucket and the key (`parts[0]`, `parts[1]`). -/
def decodeLocator (s : Str) : Except Str (Str × Str) :=
  let parts := stringsSplit ',' s
  if parts.length = 2 then .ok (parts.getD 0 [], parts.getD 1 [])
  else .error malformedLocatorMsg

/-- One minute as a Go `time.Duration` (nanoseconds). -/
def timeMinute : ℕ := 60 * 1000000000

/-- `generatePresignedURL` (lines 215-232): the AWS presign client is the
external function argument; a client error is wrapped as at line 228. -/
def generatePresignedURL (presignGetObject : Str → Str → ℕ → Except Str Str)
    (bucket key : Str) (expireTime : ℕ) : Except Str Str :=
  match presignGetObject bucket key expireTime with
  | .error e => .error ("error generating presigned url: ".toList ++ e)
  | .ok u => .ok u

/-- `dbVideoToSignedVideo` (lines 234-251): an unset `VideoURL` returns the
record unchanged; otherwise the locator is decoded and a presigned URL with
a 30-minute expiry is requested and substituted into the returned record.
A signing failure is wrapped as at line 245. -/
def dbVideoToSignedVideo (presignGetObject : Str → Str → ℕ → Except Str Str)
    (video : Video) : Except Str Video :=
  match video.videoURL with
  | none => .ok video
  | some url =>
    match decodeLocator url with
    | .error e => .error e
    | .ok (bucket, key) =>
      match generatePresignedURL presignGetObject bucket key (30 * timeMinute) with
      | .error e => .error (malformedLocatorMsg ++ (": ".toList ++ e))
      | .ok u => .ok { video with videoURL := some u }

/-! ## Object key generation (lines 99-106, 123-131) -/

/-- The URL-safe base64 alphabet of Go's `base64.RawURLEncoding`. -/
def base64URLAlphabet : Str :=
  "ABCDEFGHIJKLMNOPQRSTUVWXYZabcdefghijklmnopqrstuvwxyz0123456789-_".toList

/-- Character for a 6-bit group. -/
def b64Char (n : ℕ) : Char := base64URLAlphabet.getD (n % 64) 'A'

/-- The 6-bit groups of a byte sequence, grouped three bytes at a time, with
the unpadded tail handling of `RawURLEncoding`. -/
def b64Sextets : List ℕ → List ℕ
  | [] => []
  | [b1] => [b1 / 4, b1 % 4 * 16]
  | [b1, b2] => [b1 / 4, b1 % 4 * 16 + b2 / 16, b2 % 16 * 4]
  | b1 :: b2 :: b3 :: rest =>
    (b1 / 4) :: (b1 % 4 * 16 + b2 / 16) :: (b2 % 16 * 4 + b3 / 64) :: (b3 % 64)
      :: b64Sextets rest

/-- `base64.RawURLEncoding.EncodeToString` (line 129) over the random bytes. -/
def base64RawURLEncode (bs : List ℕ) : Str := (b64Sextets bs).map b64Char

/-- The key-prefix decision of lines 99-106: aspect `"16:9"` gives
`"landscape"`, `"9:16"` gives `"portrait"`, anything else gives `"other"`. -/
def keyPrefixFor (aspect : Str) : Str :=
  if aspect = "16:9".toList then "landscape".toList
  else if aspect = "9:16".toList then "portrait".toList
  else "other".toList

/-- The object key of line 131:
`fmt.Sprintf("%s/%s", keyPrefix, filenameNoExt+extensions[0])`. -/
def uploadObjectKey (aspect : Str) (randomBytes : List ℕ) (ext : Str) : Str :=
  keyPrefixFor aspect ++ '/' :: (base64RawURLEncode randomBytes ++ ext)

/-! ## Upload orchestrator (`handlerUploadVideo`, lines 26-161) -/

/-- The request-fixed upload size ceiling of line 27: `1 << 30` bytes. -/
def uploadLimit : ℕ := 2 ^ 30

/-- Representative path of the staged temporary file created by
`os.CreateTemp("", "tubely-upload.mp4")` at line 75. -/
def stagedFilePath : Str := "/tmp/tubely-upload.mp4".toList

/-- Path of the remux output: `filePath + ".processing"` (line 204). -/
def processedFilePath : Str := stagedFilePath ++ ".processing".toList

/-- `processVideoForFastStart` (lines 203-213): invokes `ffmpeg` on the staged
file with a sibling output path; on a nonzero exit it returns an error and
performs no cleanup of any partial output the tool may have produced. -/
def processVideoForFastStart (ffmpegOk : Bool) (filePath : Str) :
    Except Str Str :=
  if ffmpegOk then .ok (filePath ++ ".processing".toList)
  else .error "failed to run ffmpeg: exit status 1".toList

/-- Outcomes of every external interaction one request can perform, in source
order. The subprocess filesystem effect of a failing `ffmpeg` run (whether a
partial output file was left at the output path) is an environment input,
since the tool is outside the program. -/
structure Env where
  videoIDValid : Bool
  bearerTokenOk : Bool
  jwtValid : Bool
  jwtUserID : ℕ
  getVideoResult : Option Video
  formFileOk : Bool
  bodySize : ℕ
  mediaType : Str
  extensionsOk : Bool
  extList : List Str
  createTempOk : Bool
  copyOk : Bool
  seekOk : Bool
  ffprobe : Except Str (List (ℤ × ℤ))
  ffmpegOk : Bool
  ffmpegLeftPartialFile : Bool
  openProcessedOk : Bool
  randomOk : Bool
  randomBytes : List ℕ
  s3Bucket : Str
  putOk : Bool
  updateOk : Bool
  signOk : Bool
  signURL : Str

/-- HTTP response of one request: `respondWithError` with a status code, or
`respondWithJSON` of the signed video. -/
inductive Resp where
  | failure (status : ℕ)
  | success (v : Video)
deriving DecidableEq, Repr

/-- Observable effect trace of one request: temporary files created and
removed (in removal order), objects put to the store as (bucket, key),
record-update calls, and the response. -/
structure Trace where
  filesCreated : List Str
  filesRemoved : List Str
  objectsPut : List (Str × Str)
  recordUpdates : List Video
  response : Resp
deriving DecidableEq, Repr

/-- An early-exit trace from before any temporary file exists. -/
def noFileErr (status : ℕ) : Trace := ⟨[], [], [], [], .failure status⟩

/-- An error exit after the staged file was created: its deferred removal
(line 80) runs. -/
def stagedErr (status : ℕ) : Trace :=
  ⟨[stagedFilePath], [stagedFilePath], [], [], .failure status⟩

/-- The presign client the handler's final step uses, drawn from the
environment. -/
def envSigner (env : Env) : Str → Str → ℕ → Except Str Str :=
  fun _ _ _ => if env.signOk then .ok env.signURL else .error "access denied".toList

/-- `handlerUploadVideo` (lines 26-161) as a function from the environment to
its effect trace. The steps follow the source exactly: `MaxBytesReader` is
installed before the body is read, so the size gate takes effect inside
`r.FormFile` (the first body read, line 55) — bodies over `uploadLimit`
make it fail before `os.CreateTemp` runs. Deferred removals run on every
exit after their registration point (lines 80 and 120), in LIFO order. -/
def handlerUploadVideo (env : Env) : Trace :=
  if env.videoIDValid then
    if env.bearerTokenOk then
      if env.jwtValid then
        match env.getVideoResult with
        | none => noFileErr 401
        | some video =>
          if video.userID = env.jwtUserID then
            if env.formFileOk ∧ env.bodySize ≤ uploadLimit then
              if env.mediaType = "video/mp4".toList then
                if env.extensionsOk then
                  if env.extList = [] then noFileErr 400
                  else
                    if env.createTempOk then
                      if env.copyOk then
                        if env.seekOk then
                          match getVideoAspectRatio env.ffprobe with
                          | .error _ => stagedErr 500
                          | .ok aspect =>
                            match processVideoForFastStart env.ffmpegOk stagedFilePath with
                            | .error _ =>
                              ⟨if env.ffmpegLeftPartialFile then
                                  [stagedFilePath, processedFilePath]
                                else [stagedFilePath],
                               [stagedFilePath], [], [], .failure 500⟩
                            | .ok processedPath =>
                              if env.openProcessedOk then
                                if env.randomOk then
                                  let objectKey :=
                                    uploadObjectKey aspect env.randomBytes env.extList.headI
                                  if env.putOk then
                                    let videoURL := mkVideoURL env.s3Bucket objectKey
                                    let updated := { video with videoURL := some videoURL }
                                    if env.updateOk then
                                      match dbVideoToSignedVideo (envSigner env) updated with
                                      | .error _ =>
                                        ⟨[stagedFilePath, processedPath],
                                         [processedPath, stagedFilePath],
                                         [(env.s3Bucket, objectKey)], [updated], .failure 500⟩
                                      | .ok signed =>
                                        ⟨[stagedFilePath, processedPath],
                                         [processedPath, stagedFilePath],
                                         [(env.s3Bucket, objectKey)], [updated], .success signed⟩
                                    else
                                      ⟨[stagedFilePath, processedPath],
                                       [processedPath, stagedFilePath],
                                       [(env.s3Bucket, objectKey)], [], .failure 500⟩
                                  else
                                    ⟨[stagedFilePath, processedPath],
                                     [processedPath, stagedFilePath], [], [], .failure 500⟩
                                else
                                  ⟨[stagedFilePath, processedPath],
                                   [processedPath, stagedFilePath], [], [], .failure 500⟩
                              else
                                ⟨[stagedFilePath, processedPath],
                                 [stagedFilePath], [], [], .failure 500⟩
                        else stagedErr 500
                      else stagedErr 500
                    else noFileErr 500
                else noFileErr 400
              else noFileErr 400
            else noFileErr 400
          else noFileErr 401
      else noFileErr 401
    else noFileErr 401
  else noFileErr 400

/-! ## Supporting lemmas -/

theorem append_ne_left (a x : Str) (hx : x ≠ []) : a ++ x ≠ a := by
  intro h
  have hlen := congrArg List.length h
  simp only [List.length_append] at hlen
  exact hx (List.length_eq_zero.mp (by omega))

theorem b64Char_ne_comma (n : ℕ) : b64Char n ≠ ',' := by
  have hlt : n % 64 < 64 := Nat.mod_lt _ (by norm_num)
  have hall : ∀ m, m < 64 → base64URLAlphabet.getD m 'A' ≠ ',' := by decide
  exact hall _ hlt

theorem comma_not_mem_base64 (bs : List ℕ) : ',' ∉ base64RawURLEncode bs := by
  unfold base64RawURLEncode
  intro hmem
  rw [List.mem_map] at hmem
  obtain ⟨n, -, hn⟩ := hmem
  exact b64Char_ne_comma n hn

theorem comma_not_mem_keyPrefixFor (aspect : Str) : ',' ∉ keyPrefixFor aspect := by
  unfold keyPrefixFor
  split_ifs <;> decide

theorem comma_not_mem_uploadObjectKey (aspect : Str) (bs : List ℕ) (ext : Str)
    (he : ',' ∉ ext) : ',' ∉ uploadObjectKey aspect bs ext := by
  unfold uploadObjectKey
  intro hmem
  simp only [List.mem_append, List.mem_cons] at hmem
  rcases hmem with h | h | h | h
  · exact comma_not_mem_keyPrefixFor aspect h
  · exact absurd h (by decide)
  · exact comma_not_mem_base64 bs h
  · exact he h

theorem decode_mkVideoURL (bucket key : Str) (hb : ',' ∉ bucket) (hk : ',' ∉ key) :
    decodeLocator (mkVideoURL bucket key) = .ok (bucket, key) := by
  unfold decodeLocator mkVideoURL
  rw [stringsSplit_append_sep ',' bucket key hb, stringsSplit_eq_single ',' key hk]
  simp

/-! ## Claims -/

/-- C1: for every ratio `r = width/height` of the first probed stream, the
classifier returns the wide category (`"16:9"`) iff `1.7 ≤ r ≤ 1.8`, the tall
category (`"9:16"`) iff `0.5 ≤ r ≤ 0.6`, and the other category otherwise;
the boundary ratios 1.7, 1.8, 0.5 and 0.6 classify into the named band. -/
theorem C1_aspect_classifier_bands (r : ℚ) :
    ((classifyAspect (FloatVal.finite r) = "16:9".toList ↔ 1.7 ≤ r ∧ r ≤ 1.8) ∧
     (classifyAspect (FloatVal.finite r) = "9:16".toList ↔ 0.5 ≤ r ∧ r ≤ 0.6) ∧
     (classifyAspect (FloatVal.finite r) = "other".toList ↔
       ¬ (1.7 ≤ r ∧ r ≤ 1.8) ∧ ¬ (0.5 ≤ r ∧ r ≤ 0.6))) ∧
    (classifyAspect (FloatVal.finite 1.7) = "16:9".toList ∧
     classifyAspect (FloatVal.finite 1.8) = "16:9".toList ∧
     classifyAspect (FloatVal.finite 0.5) = "9:16".toList ∧
     classifyAspect (FloatVal.finite 0.6) = "9:16".toList) := by
  constructor
  · simp only [classifyAspect, fge, fle, Bool.and_eq_true, decide_eq_true_eq]
    split_ifs with h1 h2
    · refine ⟨by simp [h1], ?_, ?_⟩
      · constructor
        · intro h; exact absurd h (by decide)
        · rintro ⟨-, h06⟩; exact absurd (h1.1.trans h06) (by norm_num)
      · constructor
        · intro h; exact absurd h (by decide)
        · rintro ⟨hn, -⟩; exact absurd h1 hn
    · refine ⟨?_, by simp [h2], ?_⟩
      · constructor
        · intro h; exact absurd h (by decide)
        · intro hh; exact absurd hh h1
      · constructor
        · intro h; exact absurd h (by decide)
        · rintro ⟨-, hn⟩; exact absurd h2 hn
    · refine ⟨?_, ?_, by simp [h1, h2]⟩
      · constructor
        · intro h; exact absurd h (by decide)
        · intro hh; exact absurd hh h1
      · constructor
        · intro h; exact absurd h (by decide)
        · intro hh; exact absurd hh h2
  · refine ⟨?_, ?_, ?_, ?_⟩ <;> norm_num [classifyAspect, fge, fle]

/-- C10: the classifier is total over all probed geometries: a first stream
with height 0 makes the unguarded `float64` division produce `+Inf`, `-Inf`
or `NaN`, all of which fall outside both bands, so `getVideoAspectRatio`
returns `"other"` without failing, for every width. -/
theorem C10_zero_height_classifies_other (w : ℤ) (rest : List (ℤ × ℤ)) :
    getVideoAspectRatio (.ok ((w, 0) :: rest)) = .ok "other".toList := by
  have hval : classifyAspect (float64Div w 0) = "other".toList := by
    rcases lt_trichotomy 0 w with h | h | h
    · rw [show float64Div w 0 = .posInf by simp [float64Div, h]]
      decide
    · rw [show float64Div w 0 = .nan by simp [float64Div, ← h]]
      decide
    · rw [show float64Div w 0 = .negInf by
        simp [float64Div, h, not_lt_of_gt h]]
      decide
  simp only [getVideoAspectRatio, hval]

/-- C5: for every bucket and key free of the delimiter `','`, decoding the
Locator produced by encoding the pair (line 145) yields exactly that bucket
and key. -/
theorem C5_locator_round_trip (bucket key : Str) (hb : ',' ∉ bucket) (hk : ',' ∉ key) :
    decodeLocator (mkVideoURL bucket key) = .ok (bucket, key) :=
  decode_mkVideoURL bucket key hb hk

/-- C5 witness at a concrete bucket/key pair. -/
theorem C5_locator_round_trip_witness :
    decodeLocator (mkVideoURL "tubely-bucket".toList "landscape/AA.mp4".toList) =
      .ok ("tubely-bucket".toList, "landscape/AA.mp4".toList) :=
  C5_locator_round_trip "tubely-bucket".toList "landscape/AA.mp4".toList
    (by decide) (by decide)

/-- A presign client that always succeeds with a fixed URL, used to exercise
the decode path in isolation. -/
def okSigner : Str → Str → ℕ → Except Str Str :=
  fun _ _ _ => .ok "https://signed.example/u".toList

/-- C3 counterexample: the claim says decode+sign fails whenever either
component is empty, but a locator with exactly one delimiter and an empty
bucket component (`",key"`) is accepted: the length-2 check of line 239
passes and signing proceeds. -/
theorem C3_counterexample_empty_component_accepted :
    dbVideoToSignedVideo okSigner ⟨1, 2, none, some ",key".toList⟩ =
      .ok ⟨1, 2, none, some "https://signed.example/u".toList⟩ := rfl

/-- C3 as amended: decode+sign fails with the malformed-locator error exactly
when the number of delimiter occurrences differs from one (equivalently, the
split does not have exactly two parts); emptiness of the components is not
checked. -/
theorem C3_malformed_iff_delimiter_count_ne_one
    (presign : Str → Str → ℕ → Except Str Str) (v : Video) (s : Str)
    (h : v.videoURL = some s) :
    dbVideoToSignedVideo presign v = .error malformedLocatorMsg ↔
      countChar ',' s ≠ 1 := by
  obtain ⟨vid, vuser, vthumb, vurl⟩ := v
  simp only at h
  subst h
  simp only [dbVideoToSignedVideo]
  by_cases hc : countChar ',' s = 1
  · have hlen : (stringsSplit ',' s).length = 2 := by
      rw [length_stringsSplit, hc]
    unfold decodeLocator
    rw [if_pos hlen]
    simp only [hc, ne_eq, not_true_eq_false, iff_false]
    unfold generatePresignedURL
    cases hres : presign ((stringsSplit ',' s).getD 0 [])
        ((stringsSplit ',' s).getD 1 []) (30 * timeMinute) with
    | ok u => simp
    | error e =>
      simp only [Except.error.injEq]
      exact append_ne_left malformedLocatorMsg
        (": ".toList ++ ("error generating presigned url: ".toList ++ e)) (by simp)
  · have hlen : ¬ (stringsSplit ',' s).length = 2 := by
      rw [length_stringsSplit]
      omega
    unfold decodeLocator
    rw [if_neg hlen]
    simp [hc]

/-- C3 witness: a locator with two delimiters fails with the malformed
error even under an always-succeeding presign client. -/
theorem C3_malformed_witness :
    dbVideoToSignedVideo okSigner ⟨1, 2, none, some "a,b,c".toList⟩ =
      .error malformedLocatorMsg :=
  (C3_malformed_iff_delimiter_count_ne_one okSigner
    ⟨1, 2, none, some "a,b,c".toList⟩ "a,b,c".toList rfl).mpr (by decide)

/-- C6: a record with an unset Locator is returned unchanged under every
presign client (so no signing call can influence the result), and a record
with a well-formed Locator is returned carrying the URL the presign client
produced for exactly a 30-minute window (`30 * time.Minute` nanoseconds);
the signed URL only replaces the field of the returned record — the
function performs no record-store write. -/
theorem C6_unset_unchanged_and_thirty_minute_window :
    (∀ (presign : Str → Str → ℕ → Except Str Str) (v : Video),
      v.videoURL = none → dbVideoToSignedVideo presign v = .ok v) ∧
    (∀ (presign : Str → Str → ℕ → Except Str Str) (v : Video)
      (bucket key u : Str),
      v.videoURL = some (mkVideoURL bucket key) → ',' ∉ bucket → ',' ∉ key →
      presign bucket key (30 * timeMinute) = .ok u →
      dbVideoToSignedVideo presign v = .ok { v with videoURL := some u }) := by
  constructor
  · intro presign v h
    obtain ⟨vid, vuser, vthumb, vurl⟩ := v
    simp only at h
    subst h
    rfl
  · intro presign v bucket key u hurl hb hk hsign
    obtain ⟨vid, vuser, vthumb, vurl⟩ := v
    simp only at hurl
    subst hurl
    simp only [dbVideoToSignedVideo, decode_mkVideoURL bucket key hb hk,
      generatePresignedURL, hsign]

/-- C6 witness: both parts at concrete records and presign clients. -/
theorem C6_unset_unchanged_witness :
    dbVideoToSignedVideo okSigner ⟨1, 2, none, none⟩ = .ok ⟨1, 2, none, none⟩ ∧
    dbVideoToSignedVideo (fun _ _ _ => .ok "u".toList)
      ⟨1, 2, none, some "b,k".toList⟩ = .ok ⟨1, 2, none, some "u".toList⟩ := by
  constructor
  · exact C6_unset_unchanged_and_thirty_minute_window.1 okSigner ⟨1, 2, none, none⟩ rfl
  · exact C6_unset_unchanged_and_thirty_minute_window.2 (fun _ _ _ => .ok "u".toList)
      ⟨1, 2, none, some "b,k".toList⟩ "b".toList "k".toList "u".toList rfl
      (by decide) (by decide) rfl

/-- C9: with a nonempty, delimiter-free bucket name and a delimiter-free
extension, every Locator the upload path writes (line 145) has exactly one
delimiter occurrence, splits into the bucket and the object key, both
non-empty, and therefore decodes successfully — the key prefix, the
URL-safe base64 identifier and the extension never contain the delimiter. -/
theorem C9_upload_locator_well_formed (bucket aspect : Str) (bs : List ℕ)
    (ext : Str) (hbne : bucket ≠ []) (hb : ',' ∉ bucket) (he : ',' ∉ ext) :
    countChar ',' (mkVideoURL bucket (uploadObjectKey aspect bs ext)) = 1 ∧
    stringsSplit ',' (mkVideoURL bucket (uploadObjectKey aspect bs ext)) =
      [bucket, uploadObjectKey aspect bs ext] ∧
    bucket ≠ [] ∧ uploadObjectKey aspect bs ext ≠ [] ∧
    decodeLocator (mkVideoURL bucket (uploadObjectKey aspect bs ext)) =
      .ok (bucket, uploadObjectKey aspect bs ext) := by
  have hkey : ',' ∉ uploadObjectKey aspect bs ext :=
    comma_not_mem_uploadObjectKey aspect bs ext he
  refine ⟨?_, ?_, hbne, ?_, decode_mkVideoURL _ _ hb hkey⟩
  · unfold mkVideoURL
    rw [countChar_append, countChar_eq_zero ',' bucket hb]
    simp only [countChar, countChar_eq_zero ',' _ hkey]
    simp
  · unfold mkVideoURL
    rw [stringsSplit_append_sep ',' _ _ hb, stringsSplit_eq_single ',' _ hkey]
  · unfold uploadObjectKey
    simp

/-- C9 witness at a concrete bucket, aspect, byte string and extension. -/
theorem C9_upload_locator_witness :
    countChar ',' (mkVideoURL "tubely-bucket".toList
      (uploadObjectKey "16:9".toList [1, 2, 3] ".mp4".toList)) = 1 ∧
    stringsSplit ',' (mkVideoURL "tubely-bucket".toList
      (uploadObjectKey "16:9".toList [1, 2, 3] ".mp4".toList)) =
      ["tubely-bucket".toList, uploadObjectKey "16:9".toList [1, 2, 3] ".mp4".toList] ∧
    "tubely-bucket".toList ≠ ([] : Str) ∧
    uploadObjectKey "16:9".toList [1, 2, 3] ".mp4".toList ≠ [] ∧
    decodeLocator (mkVideoURL "tubely-bucket".toList
      (uploadObjectKey "16:9".toList [1, 2, 3] ".mp4".toList)) =
      .ok ("tubely-bucket".toList, uploadObjectKey "16:9".toList [1, 2, 3] ".mp4".toList) :=
  C9_upload_locator_well_formed "tubely-bucket".toList "16:9".toList [1, 2, 3]
    ".mp4".toList (by decide) (by decide) (by decide)

/-- C2 counterexample: the claim says a wide-classified (1280×720) upload
gets a key prefixed `wide/` and a tall-classified (720×1280) one a key
prefixed `tall/`; but the code (lines 99-106) prefixes `landscape` and
`portrait`, so neither key starts with the claimed literal prefix. -/
theorem C2_counterexample_literal_prefixes :
    (uploadObjectKey (classifyAspect (float64Div 1280 720)) [0] ".mp4".toList).take 5 ≠
      "wide/".toList ∧
    (uploadObjectKey (classifyAspect (float64Div 720 1280)) [0] ".mp4".toList).take 5 ≠
      "tall/".toList := by
  have h1 : classifyAspect (float64Div 1280 720) = "16:9".toList := by
    norm_num [classifyAspect, float64Div, fge, fle]
  have h2 : classifyAspect (float64Div 720 1280) = "9:16".toList := by
    norm_num [classifyAspect, float64Div, fge, fle]
  rw [h1, h2]
  exact ⟨by decide, by decide⟩

/-- C2 as amended: the object key is prefixed according to the aspect
classification, with the literal prefixes of the code: a wide-classified
video (1280×720) yields a key prefixed `landscape/`, a tall-classified one
(720×1280) yields `portrait/`, and other geometry (640×480) yields
`other/` — for every random byte string and extension. -/
theorem C2_amended_key_prefixes (bs : List ℕ) (ext : Str) :
    (∃ rest, uploadObjectKey (classifyAspect (float64Div 1280 720)) bs ext =
      "landscape/".toList ++ rest) ∧
    (∃ rest, uploadObjectKey (classifyAspect (float64Div 720 1280)) bs ext =
      "portrait/".toList ++ rest) ∧
    (∃ rest, uploadObjectKey (classifyAspect (float64Div 640 480)) bs ext =
      "other/".toList ++ rest) := by
  have h1 : classifyAspect (float64Div 1280 720) = "16:9".toList := by
    norm_num [classifyAspect, float64Div, fge, fle]
  have h2 : classifyAspect (float64Div 720 1280) = "9:16".toList := by
    norm_num [classifyAspect, float64Div, fge, fle]
  have h3 : classifyAspect (float64Div 640 480) = "other".toList := by
    norm_num [classifyAspect, float64Div, fge, fle]
  refine ⟨⟨base64RawURLEncode bs ++ ext, ?_⟩,
          ⟨base64RawURLEncode bs ++ ext, ?_⟩,
          ⟨base64RawURLEncode bs ++ ext, ?_⟩⟩
  · rw [h1]; rfl
  · rw [h2]; rfl
  · rw [h3]; rfl

/-- A fetched video record used in concrete runs. -/
def sampleVideo : Video := ⟨7, 42, some "thumb.png".toList, none⟩

/-- An environment in which every external interaction succeeds. -/
def happyEnv : Env :=
  { videoIDValid := true, bearerTokenOk := true, jwtValid := true,
    jwtUserID := 42, getVideoResult := some sampleVideo,
    formFileOk := true, bodySize := 1024,
    mediaType := "video/mp4".toList, extensionsOk := true,
    extList := [".mp4".toList],
    createTempOk := true, copyOk := true, seekOk := true,
    ffprobe := .ok [(1280, 720)], ffmpegOk := true,
    ffmpegLeftPartialFile := false,
    openProcessedOk := true, randomOk := true, randomBytes := [0],
    s3Bucket := "tubely-bucket".toList, putOk := true, updateOk := true,
    signOk := true, signURL := "https://signed.example/u".toList }

/-- `happyEnv` with a failing remux tool that left a partial output file. -/
def remuxFailEnv : Env :=
  { happyEnv with ffmpegOk := false, ffmpegLeftPartialFile := true }

/-- C4 counterexample: when the remux tool fails having left a partial
output file at its output path, that file is created during the request but
is on no removal path — its deferred removal (line 120) is only registered
after a successful open of the remuxed file, which never happens, and
`processVideoForFastStart` returns without cleanup (lines 208-210). -/
theorem C4_counterexample_partial_artifact_leaks :
    processedFilePath ∈ (handlerUploadVideo remuxFailEnv).filesCreated ∧
    processedFilePath ∉ (handlerUploadVideo remuxFailEnv).filesRemoved := by
  decide

/-- C4 as amended: on remux failure the upload terminates with no object
written, no record update, and the staged upload file removed; a partial
remux output artifact, if the failing tool produced one, is not removed. -/
theorem C4_amended_remux_failure_effects (env : Env) (v : Video) (w h : ℤ)
    (rest : List (ℤ × ℤ))
    (h1 : env.videoIDValid = true) (h2 : env.bearerTokenOk = true)
    (h3 : env.jwtValid = true) (h4 : env.getVideoResult = some v)
    (h5 : v.userID = env.jwtUserID) (h6 : env.formFileOk = true)
    (h7 : env.bodySize ≤ uploadLimit) (h8 : env.mediaType = "video/mp4".toList)
    (h9 : env.extensionsOk = true) (h10 : env.extList ≠ [])
    (h11 : env.createTempOk = true) (h12 : env.copyOk = true)
    (h13 : env.seekOk = true) (h14 : env.ffprobe = .ok ((w, h) :: rest))
    (h15 : env.ffmpegOk = false) :
    (handlerUploadVideo env).objectsPut = [] ∧
    (handlerUploadVideo env).recordUpdates = [] ∧
    (handlerUploadVideo env).filesRemoved = [stagedFilePath] ∧
    stagedFilePath ∈ (handlerUploadVideo env).filesCreated ∧
    (handlerUploadVideo env).response = .failure 500 := by
  simp only [handlerUploadVideo, h1, h2, h3, h4, h5, h6, h7, h8, h9, h10, h11,
    h12, h13, h14, h15, getVideoAspectRatio, processVideoForFastStart,
    if_true, and_true, true_and, ne_eq, not_false_eq_true, if_false]
  refine ⟨rfl, rfl, rfl, ?_, rfl⟩
  cases hleft : env.ffmpegLeftPartialFile <;> simp [hleft]

/-- C4 witness: the amended statement at the concrete remux-failure run. -/
theorem C4_amended_remux_failure_witness :
    (handlerUploadVideo remuxFailEnv).objectsPut = [] ∧
    (handlerUploadVideo remuxFailEnv).recordUpdates = [] ∧
    (handlerUploadVideo remuxFailEnv).filesRemoved = [stagedFilePath] ∧
    stagedFilePath ∈ (handlerUploadVideo remuxFailEnv).filesCreated ∧
    (handlerUploadVideo remuxFailEnv).response = .failure 500 :=
  C4_amended_remux_failure_effects remuxFailEnv sampleVideo 1280 720 []
    rfl rfl rfl rfl rfl rfl (by decide) rfl rfl (by decide) rfl rfl rfl rfl rfl

/-- C7: an upload whose body exceeds the 1 GiB ceiling never creates the
staged temporary file — `MaxBytesReader` is installed (line 28) before the
first body read in `r.FormFile` (line 55), which precedes `os.CreateTemp`
(line 75) — and the request ends in an error response. -/
theorem C7_oversized_creates_no_temp_file (env : Env)
    (h : uploadLimit < env.bodySize) :
    (handlerUploadVideo env).filesCreated = [] ∧
    ∃ status, (handlerUploadVideo env).response = Resp.failure status := by
  have hng : ¬ (env.formFileOk ∧ env.bodySize ≤ uploadLimit) := by
    rintro ⟨-, hle⟩
    omega
  simp only [handlerUploadVideo, hng, if_false]
  repeat first
  | exact ⟨rfl, _, rfl⟩
  | split

/-- C7 witness: a concrete oversized request is rejected with no staged file. -/
theorem C7_oversized_witness :
    (handlerUploadVideo { happyEnv with bodySize := 2 ^ 30 + 1 }).filesCreated = [] ∧
    ∃ status, (handlerUploadVideo { happyEnv with bodySize := 2 ^ 30 + 1 }).response =
      Resp.failure status :=
  C7_oversized_creates_no_temp_file { happyEnv with bodySize := 2 ^ 30 + 1 }
    (by norm_num [uploadLimit])

/-- C8: a successful upload makes exactly one record update, whose record is
the fetched record with only the Locator field rewritten: identity, owning
user and thumbnail reference are unchanged. -/
theorem C8_update_rewrites_only_locator (env : Env) (v : Video) (w h : ℤ)
    (rest : List (ℤ × ℤ))
    (h1 : env.videoIDValid = true) (h2 : env.bearerTokenOk = true)
    (h3 : env.jwtValid = true) (h4 : env.getVideoResult = some v)
    (h5 : v.userID = env.jwtUserID) (h6 : env.formFileOk = true)
    (h7 : env.bodySize ≤ uploadLimit) (h8 : env.mediaType = "video/mp4".toList)
    (h9 : env.extensionsOk = true) (h10 : env.extList ≠ [])
    (h11 : env.createTempOk = true) (h12 : env.copyOk = true)
    (h13 : env.seekOk = true) (h14 : env.ffprobe = .ok ((w, h) :: rest))
    (h15 : env.ffmpegOk = true) (h16 : env.openProcessedOk = true)
    (h17 : env.randomOk = true) (h18 : env.putOk = true)
    (h19 : env.updateOk = true) :
    (handlerUploadVideo env).recordUpdates =
      [{ v with videoURL := some (mkVideoURL env.s3Bucket
          (uploadObjectKey (classifyAspect (float64Div w h))
            env.randomBytes env.extList.headI)) }] ∧
    ∀ u ∈ (handlerUploadVideo env).recordUpdates,
      u.id = v.id ∧ u.userID = v.userID ∧ u.thumbnailURL = v.thumbnailURL := by
  simp only [handlerUploadVideo, h1, h2, h3, h4, h5, h6, h7, h8, h9, h10, h11,
    h12, h13, h14, h15, h16, h17, h18, h19, getVideoAspectRatio,
    processVideoForFastStart, if_true, and_true, true_and, ne_eq,
    not_false_eq_true, if_false]
  split <;> simp

/-- C8 witness: the only-Locator-changes statement at the fully successful
concrete run. -/
theorem C8_update_rewrites_only_locator_witness :
    (handlerUploadVideo happyEnv).recordUpdates =
      [{ sampleVideo with videoURL := some (mkVideoURL happyEnv.s3Bucket
          (uploadObjectKey (classifyAspect (float64Div 1280 720))
            happyEnv.randomBytes happyEnv.extList.headI)) }] ∧
    ∀ u ∈ (handlerUploadVideo happyEnv).recordUpdates,
      u.id = sampleVideo.id ∧ u.userID = sampleVideo.userID ∧
        u.thumbnailURL = sampleVideo.thumbnailURL :=
  C8_update_rewrites_only_locator happyEnv sampleVideo 1280 720 [] rfl rfl rfl
    rfl rfl rfl (by decide) rfl rfl (by decide) rfl rfl rfl rfl rfl rfl rfl rfl rfl

end Tubely
